import Mathlib

/-!
Verification of the insurance funnel orchestration engine
(`src/services/InsuranceFormAutomator.js`).

The JavaScript source is shallowly embedded: each function under scrutiny is
translated into an executable Lean definition over explicit state types
(page snapshots, dropdown option lists, click-strategy outcomes, DOM command
traces), and the specification's claims are settled as theorems about those
definitions.
-/

namespace InsuranceAutomation

/-- Prefix test on character lists (helper for the substring test). -/
def listIsPrefixOfChars : List Char → List Char → Bool
  | [], _ => true
  | _ :: _, [] => false
  | a :: as, b :: bs => a == b && listIsPrefixOfChars as bs

/-- Does `n` occur as a contiguous run inside the second list? -/
def listHasInfix (n : List Char) : List Char → Bool
  | [] => listIsPrefixOfChars n []
  | c :: cs => listIsPrefixOfChars n (c :: cs) || listHasInfix n cs

/-- Boolean substring test, the embedding of JavaScript
`hay.includes(needle)` (used as `currentUrl.includes(...)` and
`text.includes(...)` throughout the source). -/
def substr (needle hay : String) : Bool :=
  listHasInfix needle.toList hay.toList

/-! ### Stage detection (`handleConditionalSteps`, lines 632-863)

Each step of `handleConditionalSteps` guards its handler with a detection
predicate of the form `currentUrl.includes(fragment) || await page.$(marker)`.
A page snapshot records the browser URL and the set of DOM marker ids present
(`page.$('#pgN')` succeeds exactly when the id is present). -/

/-- The funnel stages that `handleConditionalSteps` detects, in its fixed
dispatch order. -/
inductive StageId
  | prefill
  | vehicleUsage
  | vehicleList
  | driverInfo
  | driverList
  | policyInfo
  | coverageOptions
  | propertyInfo
  | quoteResults
  | contactMethod
  | alsoInterested
  | thankYou
deriving DecidableEq, Fintype, Repr

/-- A synthetic page snapshot: the browser's current URL plus the DOM marker
ids present on the page. -/
structure PageSnapshot where
  url : String
  markers : List String
deriving DecidableEq, Repr

/-- The per-stage detection predicate of `handleConditionalSteps`:
`currentUrl.includes(fragment) || page.$('#marker')`, transcribed per stage
from lines 639, 646, 653, 660, 667, 674, 730-744, 789, 801-804, 828, 835
and 842 of the source. -/
def detect (s : StageId) (p : PageSnapshot) : Bool :=
  match s with
  | .prefill => substr ("/Prefill") p.url
  | .vehicleUsage => substr ("/VehicleUsage") p.url || p.markers.contains ("pg2")
  | .vehicleList => substr ("/VehicleList") p.url || p.markers.contains ("pg3")
  | .driverInfo => substr ("/Driver") p.url || p.markers.contains ("pg4")
  | .driverList => substr ("/DriverList") p.url || p.markers.contains ("pg5")
  | .policyInfo => substr ("/PolicyInfo") p.url || p.markers.contains ("pg6")
  | .coverageOptions => substr ("/CoverageOptions") p.url || p.markers.contains ("pg7")
  | .propertyInfo => substr ("/PropertyInfo") p.url || p.markers.contains ("pg8")
  | .quoteResults => substr ("QuoteResults") p.url || p.markers.contains ("pgResults")
  | .contactMethod => substr ("/ContactMethod") p.url || p.markers.contains ("pgContactMethod")
  | .alsoInterested => substr ("/AlsoInterested") p.url || p.markers.contains ("pgAddlLob")
  | .thankYou =>
      substr ("/ThankYou") p.url || substr ("/Complete") p.url ||
        p.markers.contains ("pgThankYou")

/-- The snapshot a browser actually sitting on stage `s` shows: the URL is the
stage's own location fragment and exactly the stage's own DOM marker is
present. -/
def canonicalSnapshot (s : StageId) : PageSnapshot :=
  match s with
  | .prefill => { url := "/Prefill", markers := [] }
  | .vehicleUsage => { url := "/VehicleUsage", markers := ["pg2"] }
  | .vehicleList => { url := "/VehicleList", markers := ["pg3"] }
  | .driverInfo => { url := "/Driver", markers := ["pg4"] }
  | .driverList => { url := "/DriverList", markers := ["pg5"] }
  | .policyInfo => { url := "/PolicyInfo", markers := ["pg6"] }
  | .coverageOptions => { url := "/CoverageOptions", markers := ["pg7"] }
  | .propertyInfo => { url := "/PropertyInfo", markers := ["pg8"] }
  | .quoteResults => { url := "QuoteResults", markers := ["pgResults"] }
  | .contactMethod => { url := "/ContactMethod", markers := ["pgContactMethod"] }
  | .alsoInterested => { url := "/AlsoInterested", markers := ["pgAddlLob"] }
  | .thankYou => { url := "/ThankYou", markers := ["pgThankYou"] }

/-- A snapshot of a browser sitting on the driver-list page. -/
def c1CollisionSnapshot : PageSnapshot :=
  { url := "https://funnel.example/DriverList", markers := [] }

/-- C1 counterexample: stage detection is not mutually exclusive.  On a
snapshot whose URL contains `/DriverList` (and with no markers at all), the
DriverInfo predicate also fires, because its fragment `/Driver` is a
substring of `/DriverList`; two distinct stages are simultaneously reported
present. -/
theorem c1_counterexample_driver_pair :
    detect StageId.driverInfo c1CollisionSnapshot = true ∧
    detect StageId.driverList c1CollisionSnapshot = true ∧
    StageId.driverInfo ≠ StageId.driverList := by decide

/-- C1 (amended): on canonical single-stage snapshots the per-stage detection
predicates are mutually exclusive, with the single exception of the
DriverInfo/DriverList pair: the canonical DriverList snapshot is also
reported present by the DriverInfo predicate. -/
theorem c1_canonical_detection_exclusive_except_driver_pair :
    ∀ s t : StageId, detect t (canonicalSnapshot s) = true ↔
      (t = s ∨ (s = StageId.driverList ∧ t = StageId.driverInfo)) := by decide

/-! ### Robust click (`clickButton`, lines 1366-1475)

`clickButton` probes the element (existence, visibility, enabled state,
viewport), then walks a fixed ladder of four click strategies.  The element
probe and the outcome of each strategy against the live page are the
environment of the embedding; `none` means the strategy succeeds, `some e`
means it throws with message `e`. -/

/-- The element probe computed at lines 1374-1392 (`page.evaluate` over the
selector).  `etype` is the element's `type` attribute. -/
structure ElementInfo where
  present : Bool
  visible : Bool
  enabled : Bool
  inViewport : Bool
  etype : String
deriving DecidableEq, Repr

/-- Probe plus per-strategy outcomes: `none` = the strategy's click succeeds,
`some e` = it throws with message `e`.  `formSubmit` is the outcome of the
method-4 body when the element is submit-typed. -/
structure ClickEnv where
  info : ElementInfo
  standardClick : Option String
  evaluateClick : Option String
  mouseClick : Option String
  formSubmit : Option String
deriving DecidableEq, Repr

/-- Outcome of click method 4 (lines 1439-1452): only submit-typed elements
run the form-submission body; any other element type throws
`Not a submit button`. -/
def method4Outcome (env : ClickEnv) : Option String :=
  if env.info.etype == "submit" then env.formSubmit
  else some ("Not a submit button")

/-- The embedding of `clickButton` (lines 1366-1475): immediate errors for a
missing, invisible or disabled element; otherwise the four click methods in
source order, stopping at the first success; when every method throws, the
raised message interpolates only `lastError`, which after the loop is always
method 4's error.  (The scroll-into-view at lines 1409-1415 has no effect on
the returned value and is omitted.) -/
def clickButton (sel : String) (env : ClickEnv) : Except String String :=
  if env.info.present = false then
    Except.error ("Element " ++ sel ++ " does not exist")
  else if env.info.visible = false then
    Except.error ("Element " ++ sel ++ " is not visible")
  else if env.info.enabled = false then
    Except.error ("Element " ++ sel ++ " is disabled")
  else
    match env.standardClick with
    | none => Except.ok ("standard_click")
    | some _ =>
      match env.evaluateClick with
      | none => Except.ok ("evaluate_click")
      | some _ =>
        match env.mouseClick with
        | none => Except.ok ("mouse_click")
        | some _ =>
          match method4Outcome env with
          | none => Except.ok ("form_submit")
          | some e4 =>
            Except.error ("All click methods failed for " ++ sel ++ ". Last error: " ++ e4)

/-- C4: the robust-click contract.  Probe failures error out before any
strategy runs; the strategies run in the fixed source order with
first-success-wins; an element failing strategies 1-2 but succeeding on 3
reports success via `mouse_click`; and an overall error is only possible
once every strategy (including method 4) has been attempted and failed. -/
theorem c4_clickButton_strategy_ladder (sel : String) (env : ClickEnv) :
    (env.info.present = false →
      clickButton sel env = Except.error ("Element " ++ sel ++ " does not exist")) ∧
    (env.info.present = true → env.info.visible = false →
      clickButton sel env = Except.error ("Element " ++ sel ++ " is not visible")) ∧
    (env.info.present = true → env.info.visible = true → env.info.enabled = false →
      clickButton sel env = Except.error ("Element " ++ sel ++ " is disabled")) ∧
    (env.info.present = true → env.info.visible = true → env.info.enabled = true →
      env.standardClick = none → clickButton sel env = Except.ok ("standard_click")) ∧
    (env.info.present = true → env.info.visible = true → env.info.enabled = true →
      env.standardClick.isSome = true → env.evaluateClick = none →
      clickButton sel env = Except.ok ("evaluate_click")) ∧
    (env.info.present = true → env.info.visible = true → env.info.enabled = true →
      env.standardClick.isSome = true → env.evaluateClick.isSome = true →
      env.mouseClick = none → clickButton sel env = Except.ok ("mouse_click")) ∧
    (env.info.present = true → env.info.visible = true → env.info.enabled = true →
      env.standardClick.isSome = true → env.evaluateClick.isSome = true →
      env.mouseClick.isSome = true → method4Outcome env = none →
      clickButton sel env = Except.ok ("form_submit")) ∧
    (∀ msg : String, clickButton sel env = Except.error msg →
      env.info.present = true → env.info.visible = true → env.info.enabled = true →
      env.standardClick.isSome = true ∧ env.evaluateClick.isSome = true ∧
        env.mouseClick.isSome = true ∧ (method4Outcome env).isSome = true) := by
  refine ⟨?_, ?_, ?_, ?_, ?_, ?_, ?_, ?_⟩
  · intro hp
    simp [clickButton, hp]
  · intro hp hv
    simp [clickButton, hp, hv]
  · intro hp hv he
    simp [clickButton, hp, hv, he]
  · intro hp hv he h1
    simp [clickButton, hp, hv, he, h1]
  · intro hp hv he h1 h2
    obtain ⟨e1, he1⟩ := Option.isSome_iff_exists.mp h1
    simp [clickButton, hp, hv, he, he1, h2]
  · intro hp hv he h1 h2 h3
    obtain ⟨e1, he1⟩ := Option.isSome_iff_exists.mp h1
    obtain ⟨e2, he2⟩ := Option.isSome_iff_exists.mp h2
    simp [clickButton, hp, hv, he, he1, he2, h3]
  · intro hp hv he h1 h2 h3 h4
    obtain ⟨e1, he1⟩ := Option.isSome_iff_exists.mp h1
    obtain ⟨e2, he2⟩ := Option.isSome_iff_exists.mp h2
    obtain ⟨e3, he3⟩ := Option.isSome_iff_exists.mp h3
    simp [clickButton, hp, hv, he, he1, he2, he3, h4]
  · intro msg hmsg hp hv he
    cases hm1 : env.standardClick with
    | none => simp [clickButton, hp, hv, he, hm1] at hmsg
    | some e1 =>
      cases hm2 : env.evaluateClick with
      | none => simp [clickButton, hp, hv, he, hm1, hm2] at hmsg
      | some e2 =>
        cases hm3 : env.mouseClick with
        | none => simp [clickButton, hp, hv, he, hm1, hm2, hm3] at hmsg
        | some e3 =>
          cases hm4 : method4Outcome env with
          | none => simp [clickButton, hp, hv, he, hm1, hm2, hm3, hm4] at hmsg
          | some e4 =>
            exact ⟨by simp [hm1], by simp [hm2], by simp [hm3], by simp [hm4]⟩

/-- Element environment for the C4 witness run: the probe passes, strategies
1-2 throw, strategy 3 succeeds. -/
def c4WitnessEnv : ClickEnv :=
  { info := { present := true, visible := true, enabled := true,
              inViewport := false, etype := "button" },
    standardClick := some ("node is detached from document"),
    evaluateClick := some ("evaluate threw an exception"),
    mouseClick := none,
    formSubmit := none }

/-- C4 witness: a concrete element failing strategies 1-2 and succeeding on
strategy 3 reports success via `mouse_click`. -/
theorem c4_witness :
    clickButton ("#pg1btn") c4WitnessEnv = Except.ok ("mouse_click") :=
  (c4_clickButton_strategy_ladder ("#pg1btn") c4WitnessEnv).2.2.2.2.2.1
    rfl rfl rfl rfl rfl rfl

/-- Element environment in which every click strategy fails, with three
distinct per-method failure reasons. -/
def c3Env : ClickEnv :=
  { info := { present := true, visible := true, enabled := true,
              inViewport := true, etype := "button" },
    standardClick := some ("network timeout during click"),
    evaluateClick := some ("evaluate threw an exception"),
    mouseClick := some ("no bounding box"),
    formSubmit := none }

/-- C3 counterexample: when all four strategies fail, the raised message does
not aggregate every per-method failure reason; for this concrete run it
contains neither method 1's reason (shown) nor the others, only the last
attempted method's error. -/
theorem c3_counterexample :
    clickButton ("#btn") c3Env =
      Except.error ("All click methods failed for #btn. Last error: Not a submit button") ∧
    substr ("network timeout during click")
      ("All click methods failed for #btn. Last error: Not a submit button") = false ∧
    substr ("no bounding box")
      ("All click methods failed for #btn. Last error: Not a submit button") = false ∧
    c3Env.standardClick = some ("network timeout during click") := by
  refine ⟨rfl, by decide, by decide, rfl⟩

/-- C3 (amended): when every strategy fails, the raised error names the
selector and the failure reason of the last attempted method (method 4)
only. -/
theorem c3_amended_error_names_last_failure (sel : String) (env : ClickEnv)
    (hp : env.info.present = true) (hv : env.info.visible = true)
    (he : env.info.enabled = true)
    (h1 : env.standardClick.isSome = true) (h2 : env.evaluateClick.isSome = true)
    (h3 : env.mouseClick.isSome = true)
    (e4 : String) (h4 : method4Outcome env = some e4) :
    clickButton sel env =
      Except.error ("All click methods failed for " ++ sel ++ ". Last error: " ++ e4) := by
  rcases env with ⟨⟨pres, vis, en, inv, ty⟩, m1, m2, m3, m4⟩
  cases m1 <;> cases m2 <;> cases m3 <;> simp_all [clickButton]

/-- C3 amended witness: the concrete all-fail environment raises exactly the
last-error message. -/
theorem c3_amended_witness :
    clickButton ("#btn") c3Env =
      Except.error ("All click methods failed for " ++ "#btn" ++
        ". Last error: " ++ "Not a submit button") :=
  c3_amended_error_names_last_failure ("#btn") c3Env rfl rfl rfl rfl rfl rfl
    ("Not a submit button") rfl

/-! ### Set-text (`clearAndType`, lines 1334-1363)

`clearAndType` is embedded as the sequence of DOM commands it issues against
the page, plus its Boolean return value.  The command alphabet contains a
read-back command (`readValue`, the embedding of `page.$eval(sel, el =>
el.value)`, used elsewhere in the source, e.g. `fillDateField` line 612) so
that the presence or absence of a verification step is observable. -/

/-- DOM commands the interaction engine can issue against a text field. -/
inductive DomCmd
  | query (sel : String)
  | clearValue (sel : String)
  | typeChar (sel : String) (c : Char)
  | readValue (sel : String)
deriving DecidableEq, Repr

/-- The embedding of `clearAndType` (lines 1334-1363): look the element up
(`page.$`), return `false` if absent; otherwise set its value to the empty
string via `page.evaluate` and, when the text is non-empty (JS truthiness of
`textValue`), type it character-by-character (`page.type`); finally return
`true`.  The returned pair is (boolean outcome, issued command trace). -/
def clearAndType (elementFound : Bool) (sel : String) (text : String) :
    Bool × List DomCmd :=
  if elementFound = false then (false, [DomCmd.query sel])
  else
    (true,
      DomCmd.query sel :: DomCmd.clearValue sel ::
        (if text = "" then [] else text.toList.map (DomCmd.typeChar sel)))

/-- C7 as stated: after clearing and typing, Set-text verifies that the field
holds the expected value, i.e. its command trace reads the field back. -/
def c7ClaimVerifies : Prop :=
  ∀ sel text : String,
    DomCmd.readValue sel ∈ (clearAndType true sel text).2

/-- C7 counterexample: `clearAndType` never reads the field back; on the
concrete call for selector `#Email` and text `ab` the trace contains no
`readValue` command, so the verification clause of the claim is false. -/
theorem c7_counterexample : ¬ c7ClaimVerifies := by
  intro h
  exact absurd (h ("#Email") ("ab")) (by decide)

/-- C7 (amended): Set-text returns a Boolean outcome rather than throwing
(`false` exactly when the element is missing), clears the field's value and
types the new value character-by-character, but performs no read-back
verification of the resulting field value. -/
theorem c7_amended_no_verification (elementFound : Bool) (sel text : String) :
    (clearAndType elementFound sel text).1 = elementFound ∧
    DomCmd.readValue sel ∉ (clearAndType elementFound sel text).2 ∧
    (elementFound = true →
      (clearAndType elementFound sel text).2 =
        DomCmd.query sel :: DomCmd.clearValue sel ::
          text.toList.map (DomCmd.typeChar sel)) := by
  cases elementFound with
  | false => simp [clearAndType]
  | true =>
    refine ⟨rfl, ?_, ?_⟩
    · by_cases ht : text = "" <;> simp [clearAndType, ht]
    · intro _
      by_cases ht : text = ""
      · subst ht
        simp [clearAndType]
      · simp [clearAndType, ht]

/-- C7 amended witness: a concrete run on an existing field returns `true`
and issues exactly query, clear, then one `typeChar` per character. -/
theorem c7_amended_witness :
    (clearAndType true ("#Email") ("ab")).1 = true ∧
    DomCmd.readValue ("#Email") ∉ (clearAndType true ("#Email") ("ab")).2 ∧
    (clearAndType true ("#Email") ("ab")).2 =
      DomCmd.query ("#Email") :: DomCmd.clearValue ("#Email") ::
        (("ab").toList.map (DomCmd.typeChar ("#Email"))) := by
  obtain ⟨h1, h2, h3⟩ := c7_amended_no_verification true ("#Email") ("ab")
  exact ⟨h1, h2, h3 rfl⟩

/-- Semantics of a DOM command on the target field's value (value as a
character list): clearing empties the field, typing appends one character at
the caret, queries and reads leave it unchanged. -/
def execCmd (v : List Char) (c : DomCmd) : List Char :=
  match c with
  | DomCmd.clearValue _ => []
  | DomCmd.typeChar _ ch => v ++ [ch]
  | DomCmd.query _ => v
  | DomCmd.readValue _ => v

/-- Run a command trace against a field value. -/
def execCmds (v : List Char) (cs : List DomCmd) : List Char :=
  cs.foldl execCmd v

/-- Typing a list of characters appends them to the field value. -/
theorem execCmds_typeChars (sel : String) (cs : List Char) (acc : List Char) :
    execCmds acc (cs.map (DomCmd.typeChar sel)) = acc ++ cs := by
  induction cs generalizing acc with
  | nil => simp [execCmds]
  | cons c cs ih =>
    simp only [List.map_cons, execCmds, List.foldl_cons] at *
    rw [ih]
    simp [execCmd]

/-- One `clearAndType` trace leaves the field holding exactly the text,
whatever it held before. -/
theorem execCmds_clearAndType (sel text : String) (v0 : List Char) :
    execCmds v0 (clearAndType true sel text).2 = text.toList := by
  by_cases ht : text = ""
  · subst ht
    simp [clearAndType, execCmds, execCmd]
  · simp only [clearAndType, ht, Bool.false_eq_true, ↓reduceIte, if_false,
      execCmds, List.foldl_cons]
    simpa [execCmd] using execCmds_typeChars sel text.toList []

/-- C9: Set-text is idempotent.  Running the `clearAndType` trace twice in
succession (same selector and text) leaves the field holding exactly the
text — not a concatenation of two copies — because each run clears the field
before typing. -/
theorem c9_setText_idempotent (sel text : String) (v0 : List Char) :
    execCmds (execCmds v0 (clearAndType true sel text).2)
        (clearAndType true sel text).2 = text.toList ∧
    execCmds v0 (clearAndType true sel text).2 = text.toList :=
  ⟨execCmds_clearAndType sel text (execCmds v0 (clearAndType true sel text).2),
   execCmds_clearAndType sel text v0⟩

/-! ### Dropdown option matching (C5, C6)

Two distinct matchers exist in the source.  `handleVehicleDetailsForm`
(lines 985-1013) tries an exact case-insensitive match on option text or
value first, then a bidirectional substring match.  The additional-vehicle
path `fillAdditionalVehicleDetails` (lines 426-447) has no exact tier: it
takes the first option that matches by substring in either direction. -/

/-- ASCII lowercase of one character, the embedding of the effect of JS
`toLowerCase()` on the ASCII strings this engine handles. -/
def lowerChar (c : Char) : Char :=
  if c.isUpper then Char.ofNat (c.toNat + 32) else c

/-- ASCII lowercase of a string (JS `value.toLowerCase()`). -/
def lowerStr (s : String) : String :=
  String.mk (s.toList.map lowerChar)

/-- A `<select>` option as read from the page (value and trimmed text). -/
structure SelectOption where
  value : String
  text : String
deriving DecidableEq, Repr

/-- Exact case-insensitive match on option text or value (lines 990-993). -/
def exactMatchPred (target : String) (o : SelectOption) : Bool :=
  (lowerStr o.text) == target || (lowerStr o.value) == target

/-- Bidirectional substring match (lines 997-1000 and 430-431):
the target occurs in the option text or the option text occurs in the
target, both lowercased. -/
def partialMatchPred (target : String) (o : SelectOption) : Bool :=
  substr target (lowerStr o.text) || substr (lowerStr o.text) target

/-- Option lookup of `handleVehicleDetailsForm` (lines 985-1001): lowercase
the requested make, try the exact match first, fall back to the substring
match. -/
def findMakeOptionMain (options : List SelectOption) (requested : String) :
    Option SelectOption :=
  match options.find? (exactMatchPred (lowerStr requested)) with
  | some o => some o
  | none => options.find? (partialMatchPred (lowerStr requested))

/-- Option lookup of `fillAdditionalVehicleDetails` (lines 426-435): first
option matching by substring in either direction; no exact-match tier. -/
def findMakeOptionAdditional (options : List SelectOption) (requested : String) :
    Option SelectOption :=
  options.find? (partialMatchPred (lowerStr requested))

/-- Make options where the first entry is a substring match for `Honda` and a
later entry is the exact match. -/
def c5Options : List SelectOption :=
  [{ value := "HOND1", text := "Honda Civic" }, { value := "HOND", text := "Honda" }]

/-- C5 counterexample: the additional-vehicle dropdown path picks the first
substring match (`Honda Civic`) even though an exact case-insensitive match
(`Honda`) exists among the options, so not every dropdown selection prefers
the exact match. -/
theorem c5_counterexample :
    findMakeOptionAdditional c5Options ("Honda") =
      some { value := "HOND1", text := "Honda Civic" } ∧
    ({ value := "HOND", text := "Honda" } : SelectOption) ∈ c5Options ∧
    exactMatchPred (lowerStr ("Honda")) { value := "HOND", text := "Honda" } = true ∧
    partialMatchPred (lowerStr ("Honda")) { value := "HOND1", text := "Honda Civic" } = true ∧
    exactMatchPred (lowerStr ("Honda")) { value := "HOND1", text := "Honda Civic" } = false := by
  refine ⟨rfl, by decide, by decide, by decide, by decide⟩

/-- C5 (amended): the main vehicle-details matcher does prefer the exact
match — whenever some option matches exactly (case-insensitively, on text or
value), it returns the first such option, never a mere substring match. -/
theorem c5_amended_main_matcher_prefers_exact (options : List SelectOption)
    (requested : String) (o : SelectOption)
    (h : options.find? (exactMatchPred (lowerStr requested)) = some o) :
    findMakeOptionMain options requested = some o := by
  simp [findMakeOptionMain, h]

/-- C5 amended witness: on the concrete option list, the main matcher
returns the exact match `Honda`, not the substring match listed first. -/
theorem c5_amended_witness :
    findMakeOptionMain c5Options ("Honda") =
      some { value := "HOND", text := "Honda" } :=
  c5_amended_main_matcher_prefers_exact c5Options ("Honda")
    { value := "HOND", text := "Honda" } (by decide)

/-! ### Make-selection failure path (C6, lines 1003-1013) -/

/-- The message of the error thrown at line 1012 when no make option
matches. -/
def vehicleMakeNotFoundMsg (make : String) : String :=
  "Vehicle make \"" ++ make ++ "\" not found in dropdown options"

/-- Make selection of `handleVehicleDetailsForm` including its failure path
(lines 1003-1013): on a match, the matched option's value is selected;
otherwise the handler throws.  The available option texts are written to the
logger (line 1011), not into the thrown error. -/
def selectVehicleMake (options : List SelectOption) (requested : String) :
    Except String String :=
  match findMakeOptionMain options requested with
  | some o => Except.ok o.value
  | none => Except.error (vehicleMakeNotFoundMsg requested)

/-- C6 as stated: whenever make selection fails, the error message
enumerates all of the actually available option texts. -/
def c6ClaimEnumeratesOptions : Prop :=
  ∀ (options : List SelectOption) (requested msg : String),
    selectVehicleMake options requested = Except.error msg →
    ∀ o ∈ options, substr o.text msg = true

/-- Option list with no exact or substring match for the typo `toyotaa`. -/
def c6Options : List SelectOption :=
  [{ value := "19", text := "Honda" }, { value := "23", text := "Ford" }]

/-- C6 counterexample: for the make `toyotaa` against options Honda/Ford the
selection fails, but the raised message does not mention the option text
`Honda` (the option texts are only logged). -/
theorem c6_counterexample : ¬ c6ClaimEnumeratesOptions := by
  intro h
  have hm := h c6Options ("toyotaa") (vehicleMakeNotFoundMsg ("toyotaa"))
    (by rfl) { value := "19", text := "Honda" } (by decide)
  exact absurd hm (by decide)

/-- A list is a Boolean prefix of itself followed by anything. -/
theorem listIsPrefixOfChars_append (n b : List Char) :
    listIsPrefixOfChars n (n ++ b) = true := by
  induction n with
  | nil => rfl
  | cons a as ih => simp [listIsPrefixOfChars, ih]

/-- The empty needle occurs in every haystack. -/
theorem listHasInfix_nil (h : List Char) : listHasInfix [] h = true := by
  cases h <;> simp [listHasInfix, listIsPrefixOfChars]

/-- A needle occurs in any haystack that contains it as a contiguous run. -/
theorem listHasInfix_append (a n b : List Char) :
    listHasInfix n (a ++ (n ++ b)) = true := by
  induction a with
  | nil =>
    cases n with
    | nil => simpa using listHasInfix_nil b
    | cons c cs =>
      simp only [List.nil_append, List.cons_append, listHasInfix]
      have := listIsPrefixOfChars_append (c :: cs) b
      simp only [List.cons_append] at this
      simp [this]
  | cons x xs ih => simp [listHasInfix, ih]

/-- `substr` finds a string inside any surrounding context. -/
theorem substr_surround (pre s post : String) :
    substr s (pre ++ s ++ post) = true := by
  have : (pre ++ s ++ post).toList = pre.toList ++ (s.toList ++ post.toList) := by
    simp [String.toList, String.data_append]
  rw [substr, this]
  exact listHasInfix_append pre.toList s.toList post.toList

/-- C6 (amended): when neither an exact nor a substring match exists, make
selection fails with an error whose message names the requested (unmatched)
make value; the available option texts are only logged, not included in the
message. -/
theorem c6_amended_error_names_requested_make (options : List SelectOption)
    (requested : String) (h : findMakeOptionMain options requested = none) :
    selectVehicleMake options requested =
      Except.error (vehicleMakeNotFoundMsg requested) ∧
    substr requested (vehicleMakeNotFoundMsg requested) = true := by
  constructor
  · simp [selectVehicleMake, h]
  · exact substr_surround ("Vehicle make \"") requested
      ("\" not found in dropdown options")

/-- C6 amended witness: the concrete failing run raises exactly the
make-not-found message, and the message contains the requested make. -/
theorem c6_amended_witness :
    selectVehicleMake c6Options ("toyotaa") =
      Except.error (vehicleMakeNotFoundMsg ("toyotaa")) ∧
    substr ("toyotaa") (vehicleMakeNotFoundMsg ("toyotaa")) = true :=
  c6_amended_error_names_requested_make c6Options ("toyotaa") (by rfl)

/-! ### Quote extraction (`extractQuotesFromCurrentPage`, lines 3116-3189)

The function reads only `.resultsPanel` containers (the source comment says
"ONLY from .resultsPanel - no fallback dummy data"); panels without a
`$`-bearing price are mapped to `null` and filtered out, and when no valid
quote remains the function returns `null`. -/

/-- One `.resultsPanel` container as the extractor reads it.  Each field is
the trimmed `textContent` of the corresponding child element (`.dollar`,
`.term`, `.resultTextSeparator`), `none` when the child is absent;
`contactOnclick` is the `.carrierSelectAu` button's `onclick` source. -/
structure QuotePanel where
  priceText : Option String
  termText : Option String
  vehicleText : Option String
  contactOnclick : Option String
deriving DecidableEq, Repr

/-- A results page: the quote panels present, the page's full rendered text,
and the URL. -/
structure ResultsPage where
  panels : List QuotePanel
  bodyText : String
  url : String
deriving DecidableEq, Repr

/-- A structured quote record as built at lines 3156-3164. -/
structure QuoteRec where
  index : Nat
  selector : String
  price : String
  term : String
  carrier : String
  vehicle : String
deriving DecidableEq, Repr

/-- First occurrence scan: drop everything up to and including the first
occurrence of `pat`, returning the remainder (`none` when `pat` does not
occur). -/
def dropThroughMarker (pat : List Char) : List Char → Option (List Char)
  | [] => if pat = [] then some [] else none
  | c :: cs =>
    if listIsPrefixOfChars pat (c :: cs) then some ((c :: cs).drop pat.length)
    else dropThroughMarker pat cs

/-- Carrier extraction at lines 3143-3149: the regex
`setSelCarrier\("([^|]+)` captures the non-`|` run after the literal
`setSelCarrier("`; without a match the carrier stays `Unknown`. -/
def carrierFromOnclick (onclick : Option String) : String :=
  match onclick with
  | none => "Unknown"
  | some s =>
    match dropThroughMarker (("setSelCarrier(\"").toList) s.toList with
    | none => "Unknown"
    | some rest =>
      match rest.takeWhile (fun c => !(c == '|')) with
      | [] => "Unknown"
      | cap => String.mk cap

/-- The per-panel mapper at lines 3133-3168: a record is produced only when
the price text is present, non-empty and contains `$`; missing term and
vehicle texts fall back to `Unknown Term` / `Unknown Vehicle`. -/
def mkQuoteFromPanel (i : Nat) (pn : QuotePanel) : Option QuoteRec :=
  match pn.priceText with
  | none => none
  | some pt =>
    if pt = "" then none
    else if substr ("$") pt then
      some
        { index := i, selector := ".resultsPanel", price := pt,
          term :=
            (match pn.termText with
             | some t => if t = "" then "Unknown Term" else t
             | none => "Unknown Term"),
          carrier := carrierFromOnclick pn.contactOnclick,
          vehicle :=
            (match pn.vehicleText with
             | some v => if v = "" then "Unknown Vehicle" else v
             | none => "Unknown Vehicle") }
    else none

/-- The aggregate returned at lines 3174-3179. -/
structure ExtractOutcome where
  quotesFound : Nat
  quotes : List QuoteRec
  extractionMethod : String
  url : String
deriving DecidableEq, Repr

/-- The embedding of `extractQuotesFromCurrentPage` (lines 3116-3189): map
the `.resultsPanel` containers through the per-panel mapper, drop the
`null`s, and return the aggregate when at least one quote survived,
`null` (`none`) otherwise.  No other part of the page is consulted. -/
def extractQuotesFromCurrentPage (p : ResultsPage) : Option ExtractOutcome :=
  match p.panels.enum.filterMap (fun ip => mkQuoteFromPanel ip.1 ip.2) with
  | [] => none
  | q :: qs =>
    some
      { quotesFound := (q :: qs).length, quotes := q :: qs,
        extractionMethod := ".resultsPanel", url := p.url }

/-- Accumulate the decimal value of a digit run (spec model helper). -/
def digitsToNat (ds : List Char) : Nat :=
  ds.foldl (fun n c => 10 * n + (c.toNat - 48)) 0

/-- Modelled from the spec: the currency-formatted tokens (`$` followed by a
digit run) occurring in a rendered text, as the spec's secondary
full-text-scan strategy would find them.  The source contains no such
scanner; this definition exists only to state claim C2. -/
def specCurrencyTokens0 : List Char → List Nat
  | [] => []
  | c :: cs =>
    (if c = '$' then
      (match cs.takeWhile Char.isDigit with
       | [] => []
       | ds => [digitsToNat ds])
     else []) ++ specCurrencyTokens0 cs

/-- Modelled from the spec: currency tokens of a string. -/
def specCurrencyTokens (s : String) : List Nat :=
  specCurrencyTokens0 s.toList

/-- C2 as stated (its observable core): when the primary container type is
absent, the extractor falls back to scanning the rendered text, so any page
with no panels but an in-window (50, 2000) currency token yields a non-empty
extraction result. -/
def c2ClaimFallbackWindow : Prop :=
  ∀ p : ResultsPage, p.panels = [] →
    ((specCurrencyTokens p.bodyText).filter (fun v => 50 < v && v < 2000)) ≠ [] →
    ∃ out, extractQuotesFromCurrentPage p = some out ∧ out.quotes ≠ []

/-- A results page with no `.resultsPanel` containers whose rendered text
carries the in-window currency token `$100`. -/
def c2Page : ResultsPage :=
  { panels := [], bodyText := "Best rate: $100 per month",
    url := "https://funnel.example/QuoteResults" }

/-- C2 counterexample: the extractor has no fallback text scan.  On a page
without panels whose text contains `$100` (inside the claimed 50-2000
window) it returns `none`, not a plausible-premium record. -/
theorem c2_counterexample : ¬ c2ClaimFallbackWindow := by
  intro h
  obtain ⟨out, hout, _⟩ := h c2Page rfl (by decide)
  simp [extractQuotesFromCurrentPage, c2Page] at hout

/-- C2 (amended): when the primary `.resultsPanel` container type is absent,
the Quote Extractor performs no fallback scan at all — it returns `none`
regardless of any currency-formatted tokens in the rendered text. -/
theorem c2_amended_no_fallback_scan (p : ResultsPage) (h : p.panels = []) :
    extractQuotesFromCurrentPage p = none := by
  simp [extractQuotesFromCurrentPage, h]

/-- C2 amended witness: the concrete panel-free page with an in-window
currency token extracts to `none`. -/
theorem c2_amended_witness : extractQuotesFromCurrentPage c2Page = none :=
  c2_amended_no_fallback_scan c2Page rfl

/-! ### Additional vehicles and drivers (C10, lines 217-375)

`handleMultiVehicleStep` routes every vehicle index ≥ 1 to
`addAdditionalVehicle`, which scans a fixed list of add-vehicle button
selectors; `handleMultiDriverStep` does the same for drivers.  When no
selector matches, both return success with a "may not support" message and
never reach the detail-filling code. -/

/-- The add-vehicle button selectors (lines 272-280).  The `:contains`
pseudo-selectors are invalid for `page.$` and throw; the surrounding
`try/catch` swallows the error, so they can never yield a button. -/
def addVehicleSelectors : List String :=
  ["button[onclick*=\"addVehicle\"]",
   "a[onclick*=\"addVehicle\"]",
   "button:contains(\"Add Vehicle\")",
   "a:contains(\"Add Vehicle\")",
   "#addVehicleBtn",
   ".add-vehicle-btn",
   "input[value*=\"Add Vehicle\"]"]

/-- The add-driver button selectors (lines 328-336). -/
def addDriverSelectors : List String :=
  ["button[onclick*=\"addDriver\"]",
   "a[onclick*=\"addDriver\"]",
   "button:contains(\"Add Driver\")",
   "a:contains(\"Add Driver\")",
   "#addDriverBtn",
   ".add-driver-btn",
   "input[value*=\"Add Driver\"]"]

/-- Page state for the add steps: the CSS selectors that currently match
some element (`page.$(sel)` is non-null exactly for these). -/
structure ButtonPage where
  matching : List String
deriving DecidableEq, Repr

/-- Result of an add step: success flag and message. -/
structure AddStepResult where
  success : Bool
  message : String
deriving DecidableEq, Repr

/-- The embedding of `addAdditionalVehicle` (lines 266-319): scan the
selector list for a button; without one, return success with the
"may not support multiple vehicles" message and never run
`fillAdditionalVehicleDetails`; with one, click it and return the detail
fill's result.  The Boolean records whether the vehicle's data entry ran. -/
def addAdditionalVehicle (page : ButtonPage) (fillOutcome : AddStepResult) :
    AddStepResult × Bool :=
  match addVehicleSelectors.find? (fun s => page.matching.contains s) with
  | none => ({ success := true, message := "Form may not support multiple vehicles" }, false)
  | some _ => (fillOutcome, true)

/-- The embedding of `addAdditionalDriver` (lines 322-375), same shape as
the vehicle variant. -/
def addAdditionalDriver (page : ButtonPage) (fillOutcome : AddStepResult) :
    AddStepResult × Bool :=
  match addDriverSelectors.find? (fun s => page.matching.contains s) with
  | none => ({ success := true, message := "Form may not support multiple drivers" }, false)
  | some _ => (fillOutcome, true)

/-- The embedding of `handleMultiVehicleStep` (lines 217-244): index 0 takes
the first-vehicle branch; every later index goes through
`addAdditionalVehicle`. -/
def handleMultiVehicleStep (idx : Nat) (firstVehicleOutcome : AddStepResult × Bool)
    (page : ButtonPage) (fillOutcome : AddStepResult) : AddStepResult × Bool :=
  if idx = 0 then firstVehicleOutcome else addAdditionalVehicle page fillOutcome

/-- The embedding of `handleMultiDriverStep` (lines 247-263): every
non-primary driver goes through `addAdditionalDriver` (the
`fillMultiVehicleDriverForm` loop skips index 0 before calling it). -/
def handleMultiDriverStep (page : ButtonPage) (fillOutcome : AddStepResult) :
    AddStepResult × Bool :=
  addAdditionalDriver page fillOutcome

/-- C10: when none of the configured add-vehicle (add-driver) selectors
matches an element, the add step for a vehicle at index ≥ 1 (a non-primary
driver) returns success with the "may not support" message, and the
detail-filling code never runs — the extra vehicle or driver is silently
dropped instead of failing the run. -/
theorem c10_missing_add_buttons_silently_skip (page : ButtonPage) (idx : Nat)
    (hidx : 1 ≤ idx) (firstVehicleOutcome : AddStepResult × Bool)
    (fillV fillD : AddStepResult)
    (hv : ∀ s ∈ addVehicleSelectors, s ∉ page.matching)
    (hd : ∀ s ∈ addDriverSelectors, s ∉ page.matching) :
    handleMultiVehicleStep idx firstVehicleOutcome page fillV =
      ({ success := true, message := "Form may not support multiple vehicles" }, false) ∧
    handleMultiDriverStep page fillD =
      ({ success := true, message := "Form may not support multiple drivers" }, false) := by
  have hidx0 : idx ≠ 0 := by omega
  have hfv : addVehicleSelectors.find? (fun s => page.matching.contains s) = none := by
    rw [List.find?_eq_none]
    intro s hs
    simpa using hv s hs
  have hfd : addDriverSelectors.find? (fun s => page.matching.contains s) = none := by
    rw [List.find?_eq_none]
    intro s hs
    simpa using hd s hs
  constructor
  · simp only [handleMultiVehicleStep, if_neg hidx0, addAdditionalVehicle, hfv]
  · simp only [handleMultiDriverStep, addAdditionalDriver, hfd]

/-- A page with form fields but no add-vehicle or add-driver button. -/
def c10Page : ButtonPage :=
  { matching := ["#VehicleYear", "#VehicleMake", "#pg1btn"] }

/-- C10 witness: on the concrete button-free page, the second vehicle and
the second driver are skipped with success results and no detail fill. -/
theorem c10_witness :
    handleMultiVehicleStep 1 ({ success := true, message := "first" }, true) c10Page
        { success := true, message := "vehicle fill ran" } =
      ({ success := true, message := "Form may not support multiple vehicles" }, false) ∧
    handleMultiDriverStep c10Page { success := true, message := "driver fill ran" } =
      ({ success := true, message := "Form may not support multiple drivers" }, false) :=
  c10_missing_add_buttons_silently_skip c10Page 1 (by decide)
    ({ success := true, message := "first" }, true)
    { success := true, message := "vehicle fill ran" }
    { success := true, message := "driver fill ran" }
    (by decide) (by decide)

/-! ### Run aborting semantics (`handleConditionalSteps`, C8)

The dispatcher threads the page through the detected stages in fixed order.
Every handler is a function from the current page to a stage result and the
page it leaves behind; the environment collects the twelve handlers and the
quote fallback extractor.  The run also records an execution trace (stage,
result) so that abort/continue behaviour is observable. -/

/-- A handler's stage result (success flag, message, the URL it reports, its
step tag, and an optional quote payload as `handleQuoteResultsStep` returns
in `data`). -/
structure StageResult where
  success : Bool
  message : String
  url : String
  step : String
  data : Option (List String)
deriving DecidableEq, Repr

/-- A stage handler: consumes the current page, returns its result and the
page the browser shows afterwards. -/
abbrev Handler := PageSnapshot → StageResult × PageSnapshot

/-- The collaborators of `handleConditionalSteps`: one handler per stage and
the fallback quote extractor used when the QuoteResults page is never
detected. -/
structure FunnelEnv where
  vehicleLookup : Handler
  vehicleUsage : Handler
  vehicleList : Handler
  driverInfo : Handler
  driverList : Handler
  policyInfo : Handler
  coverageOptions : Handler
  propertyInfo : Handler
  quoteResults : Handler
  contactMethod : Handler
  alsoInterested : Handler
  thankYou : Handler
  extractFallback : PageSnapshot → Option (List String)

/-- The handler dispatched for each detected stage. -/
def handlerOf (env : FunnelEnv) : StageId → Handler
  | .prefill => env.vehicleLookup
  | .vehicleUsage => env.vehicleUsage
  | .vehicleList => env.vehicleList
  | .driverInfo => env.driverInfo
  | .driverList => env.driverList
  | .policyInfo => env.policyInfo
  | .coverageOptions => env.coverageOptions
  | .propertyInfo => env.propertyInfo
  | .quoteResults => env.quoteResults
  | .contactMethod => env.contactMethod
  | .alsoInterested => env.alsoInterested
  | .thankYou => env.thankYou

/-- The stages checked before the quote phase (steps 2-9 of the source, in
source order). -/
def preQuoteStages : List StageId :=
  [.prefill, .vehicleUsage, .vehicleList, .driverInfo, .driverList,
   .policyInfo, .coverageOptions, .propertyInfo]

/-- The stages checked after the quote phase (steps 11-13 of the source). -/
def postQuoteStages : List StageId := [.contactMethod, .alsoInterested, .thankYou]

/-- The shared step pattern of `handleConditionalSteps` for the pre- and
post-quote stages: for each stage in order, if detected, run its handler; on
handler failure return the failure result at once (the source's
`if (!r.success) return r`), else continue on the handler's page.  Returns
the abort result (if any), the final page, and the executed (stage, result)
trace. -/
def runSteps (env : FunnelEnv) :
    List StageId → PageSnapshot →
      Option StageResult × PageSnapshot × List (StageId × StageResult)
  | [], p => (none, p, [])
  | s :: rest, p =>
    if detect s p then
      if (handlerOf env s p).1.success then
        ((runSteps env rest (handlerOf env s p).2).1,
         (runSteps env rest (handlerOf env s p).2).2.1,
         (s, (handlerOf env s p).1) :: (runSteps env rest (handlerOf env s p).2).2.2)
      else (some (handlerOf env s p).1, (handlerOf env s p).2, [(s, (handlerOf env s p).1)])
    else runSteps env rest p

/-- Step 10 of the source (lines 795-825): if the QuoteResults page is
detected, run the quote handler and store its `data` payload only when it
succeeded — a quote failure is not returned; otherwise fall back to
`extractQuotesFromCurrentPage` on the current page and store a non-empty
quote list.  Returns the stored quotes, the page, and the trace. -/
def runQuotePhase (env : FunnelEnv) (p : PageSnapshot) :
    Option (List String) × PageSnapshot × List (StageId × StageResult) :=
  if detect StageId.quoteResults p then
    ((if (env.quoteResults p).1.success then (env.quoteResults p).1.data else none),
     (env.quoteResults p).2,
     [(StageId.quoteResults, (env.quoteResults p).1)])
  else
    ((match env.extractFallback p with
      | some qs => if qs = [] then none else some qs
      | none => none),
     p, [])

/-- The final success result assembled at lines 848-861. -/
def completionResult (stored : Option (List String)) (p : PageSnapshot) : StageResult :=
  { success := true,
    message :=
      (match stored with
       | some _ => "Complete automation finished - insurance quotes retrieved!"
       | none => "Complete multi-step form automation finished successfully!"),
    url := p.url, step := "all_steps_completed", data := stored }

/-- The embedding of `handleConditionalSteps` (lines 632-863): pre-quote
stages with immediate abort on failure, the non-fatal quote phase, the
post-quote stages with immediate abort on failure, then the final success
result.  Also returns the executed (stage, result) trace. -/
def handleConditionalSteps (env : FunnelEnv) (p0 : PageSnapshot) :
    StageResult × List (StageId × StageResult) :=
  match runSteps env preQuoteStages p0 with
  | (some r, _, tr) => (r, tr)
  | (none, p1, tr1) =>
    match runQuotePhase env p1 with
    | (stored, p2, trq) =>
      match runSteps env postQuoteStages p2 with
      | (some r, _, tr2) => (r, tr1 ++ (trq ++ tr2))
      | (none, p3, tr2) => (completionResult stored p3, tr1 ++ (trq ++ tr2))

/-- When a `runSteps` pass aborts, the aborting result is a failure, its
stage is in the dispatched list, it is the last trace entry, and every
earlier executed handler succeeded. -/
theorem runSteps_some_shape (env : FunnelEnv) (ss : List StageId)
    (p : PageSnapshot) (r : StageResult)
    (h : (runSteps env ss p).1 = some r) :
    r.success = false ∧
    ∃ tr0 s, (runSteps env ss p).2.2 = tr0 ++ [(s, r)] ∧ s ∈ ss ∧
      ∀ e ∈ tr0, e.2.success = true := by
  induction ss generalizing p with
  | nil => simp [runSteps] at h
  | cons s rest ih =>
    by_cases hd : detect s p
    · by_cases hs : (handlerOf env s p).1.success = true
      · have h' : (runSteps env rest (handlerOf env s p).2).1 = some r := by
          simpa [runSteps, hd, hs] using h
        obtain ⟨hfail, tr0, s0, htr, hmem, hok⟩ := ih (handlerOf env s p).2 h'
        refine ⟨hfail, (s, (handlerOf env s p).1) :: tr0, s0, ?_, List.mem_cons_of_mem s hmem, ?_⟩
        · simp [runSteps, hd, hs, htr]
        · intro e he
          rcases List.mem_cons.mp he with he | he
          · rw [he]; exact hs
          · exact hok e he
      · have hr : (handlerOf env s p).1 = r := by
          have := h
          simp [runSteps, hd, hs] at this
          exact this
        have hrf : r.success = false := by
          rw [← hr]
          simpa using hs
        refine ⟨hrf, [], s, ?_, List.mem_cons_self s rest, by simp⟩
        simp [runSteps, hd, hs, hr, hrf]
    · have h' : (runSteps env rest p).1 = some r := by
        simpa [runSteps, hd] using h
      obtain ⟨hfail, tr0, s0, htr, hmem, hok⟩ := ih p h'
      refine ⟨hfail, tr0, s0, ?_, List.mem_cons_of_mem s hmem, hok⟩
      simpa [runSteps, hd] using htr

/-- When a `runSteps` pass completes without aborting, every executed
handler succeeded. -/
theorem runSteps_none_entries (env : FunnelEnv) (ss : List StageId)
    (p : PageSnapshot) (h : (runSteps env ss p).1 = none) :
    ∀ e ∈ (runSteps env ss p).2.2, e.2.success = true := by
  induction ss generalizing p with
  | nil => intro e he; simp [runSteps] at he
  | cons s rest ih =>
    by_cases hd : detect s p
    · by_cases hs : (handlerOf env s p).1.success = true
      · have h' : (runSteps env rest (handlerOf env s p).2).1 = none := by
          simpa [runSteps, hd, hs] using h
        intro e he
        simp only [runSteps, hd, if_true, hs] at he
        rcases List.mem_cons.mp he with he | he
        · rw [he]; exact hs
        · exact ih (handlerOf env s p).2 h' e he
      · exfalso
        simp [runSteps, hd, hs] at h
    · intro e he
      exact ih p (by simp only [runSteps, hd, if_false] at h; simpa using h) e
        (by simp only [runSteps, hd, if_false] at he; simpa using he)

/-- The stages of a `runSteps` trace form a sublist of the dispatched stage
list: no stage is ever re-entered or reordered. -/
theorem runSteps_stages_sublist (env : FunnelEnv) (ss : List StageId)
    (p : PageSnapshot) :
    ((runSteps env ss p).2.2.map Prod.fst).Sublist ss := by
  induction ss generalizing p with
  | nil => simp [runSteps]
  | cons s rest ih =>
    by_cases hd : detect s p
    · by_cases hs : (handlerOf env s p).1.success = true
      · simpa [runSteps, hd, hs] using (ih (handlerOf env s p).2).cons₂ s
      · simp only [runSteps, hd, if_true, hs, Bool.false_eq_true, if_false]
        exact (List.nil_sublist rest).cons₂ s
    · simpa [runSteps, hd] using (ih p).cons s

/-- The quote phase executes at most the quote handler. -/
theorem runQuotePhase_trace (env : FunnelEnv) (p : PageSnapshot) :
    (runQuotePhase env p).2.2 = [] ∨
    (runQuotePhase env p).2.2 = [(StageId.quoteResults, (env.quoteResults p).1)] := by
  by_cases hd : detect StageId.quoteResults p
  · right; simp [runQuotePhase, hd]
  · left; simp [runQuotePhase, hd]

/-- C8 (amended): failure handling of the state machine.  (1) No stage is
ever re-dispatched: the executed stages are pairwise distinct.  (2) The run
never continues past a failed handler of any stage other than QuoteResults:
every non-final trace entry is a success or the (non-fatal) QuoteResults
entry.  (3) When the run returns a failure, that failure is exactly the
last executed handler's result (returned unchanged, carrying that handler's
recorded location), its stage is not QuoteResults, and no later handler
ran. -/
theorem c8_nonquote_failures_abort_run (env : FunnelEnv) (p0 : PageSnapshot) :
    ((handleConditionalSteps env p0).2.map Prod.fst).Nodup ∧
    (∀ e ∈ (handleConditionalSteps env p0).2.dropLast,
        e.2.success = true ∨ e.1 = StageId.quoteResults) ∧
    ((handleConditionalSteps env p0).1.success = false →
      ∃ e, (handleConditionalSteps env p0).2.getLast? = some e ∧
        (handleConditionalSteps env p0).1 = e.2 ∧ e.2.success = false ∧
        e.1 ≠ StageId.quoteResults) := by
  rcases hpre : runSteps env preQuoteStages p0 with ⟨f1, p1, tr1⟩
  cases f1 with
  | some r =>
    have h1 : (handleConditionalSteps env p0).1 = r := by
      simp [handleConditionalSteps, hpre]
    have h2 : (handleConditionalSteps env p0).2 = tr1 := by
      simp [handleConditionalSteps, hpre]
    obtain ⟨hfail, tr0, s0, htr, hmem, hok⟩ :=
      runSteps_some_shape env preQuoteStages p0 r (by rw [hpre])
    have htr1 : tr1 = tr0 ++ [(s0, r)] := by rw [hpre] at htr; exact htr
    have hq0 : s0 ≠ StageId.quoteResults := by
      intro hqq
      have hmem2 : StageId.quoteResults ∈ preQuoteStages := hqq ▸ hmem
      exact absurd hmem2 (by decide)
    refine ⟨?_, ?_, ?_⟩
    · have hsub := runSteps_stages_sublist env preQuoteStages p0
      rw [hpre] at hsub
      rw [h2]
      exact (by decide : preQuoteStages.Nodup).sublist hsub
    · rw [h2, htr1, List.dropLast_concat]
      intro e he
      exact Or.inl (hok e he)
    · intro _
      rw [h1, h2, htr1]
      exact ⟨(s0, r), by rw [List.getLast?_concat], rfl, hfail, hq0⟩
  | none =>
    rcases hq : runQuotePhase env p1 with ⟨stored, p2, trq⟩
    rcases hpost : runSteps env postQuoteStages p2 with ⟨f2, p3, tr2⟩
    have htr1ok : ∀ e ∈ tr1, e.2.success = true := by
      have hh := runSteps_none_entries env preQuoteStages p0 (by rw [hpre])
      rw [hpre] at hh
      exact hh
    have htrq : trq = [] ∨ trq = [(StageId.quoteResults, (env.quoteResults p1).1)] := by
      have hh := runQuotePhase_trace env p1
      rw [hq] at hh
      exact hh
    have htrqfst : ∀ e ∈ trq, e.1 = StageId.quoteResults := by
      intro e he
      rcases htrq with h | h
      · rw [h] at he; simp at he
      · rw [h] at he
        simp only [List.mem_singleton] at he
        rw [he]
    have hsub1 : (tr1.map Prod.fst).Sublist preQuoteStages := by
      have hh := runSteps_stages_sublist env preQuoteStages p0
      rw [hpre] at hh
      exact hh
    have hsub2 : (tr2.map Prod.fst).Sublist postQuoteStages := by
      have hh := runSteps_stages_sublist env postQuoteStages p2
      rw [hpost] at hh
      exact hh
    have hsubq : (trq.map Prod.fst).Sublist [StageId.quoteResults] := by
      rcases htrq with h | h <;> rw [h] <;> simp
    have hndall : ((tr1 ++ (trq ++ tr2)).map Prod.fst).Nodup := by
      have hmapeq : ((tr1 ++ (trq ++ tr2)).map Prod.fst) =
          tr1.map Prod.fst ++ (trq.map Prod.fst ++ tr2.map Prod.fst) := by simp
      rw [hmapeq]
      exact (by decide :
          (preQuoteStages ++ ([StageId.quoteResults] ++ postQuoteStages)).Nodup).sublist
        (hsub1.append (hsubq.append hsub2))
    cases f2 with
    | some r =>
      have h1 : (handleConditionalSteps env p0).1 = r := by
        simp [handleConditionalSteps, hpre, hq, hpost]
      have h2 : (handleConditionalSteps env p0).2 = tr1 ++ (trq ++ tr2) := by
        simp [handleConditionalSteps, hpre, hq, hpost]
      obtain ⟨hfail, tr0, s0, htr, hmem, hok⟩ :=
        runSteps_some_shape env postQuoteStages p2 r (by rw [hpost])
      have htr2 : tr2 = tr0 ++ [(s0, r)] := by rw [hpost] at htr; exact htr
      have hq0 : s0 ≠ StageId.quoteResults := by
        intro hqq
        have hmem2 : StageId.quoteResults ∈ postQuoteStages := hqq ▸ hmem
        exact absurd hmem2 (by decide)
      have hassoc : tr1 ++ (trq ++ tr2) = (tr1 ++ (trq ++ tr0)) ++ [(s0, r)] := by
        rw [htr2]
        simp [List.append_assoc]
      refine ⟨by rw [h2]; exact hndall, ?_, ?_⟩
      · rw [h2, hassoc, List.dropLast_concat]
        intro e he
        rcases List.mem_append.mp he with he1 | heq0
        · exact Or.inl (htr1ok e he1)
        · rcases List.mem_append.mp heq0 with heq | he0
          · exact Or.inr (htrqfst e heq)
          · exact Or.inl (hok e he0)
      · intro _
        rw [h1, h2, hassoc]
        exact ⟨(s0, r), by rw [List.getLast?_concat], rfl, hfail, hq0⟩
    | none =>
      have h1 : (handleConditionalSteps env p0).1 = completionResult stored p3 := by
        simp [handleConditionalSteps, hpre, hq, hpost]
      have h2 : (handleConditionalSteps env p0).2 = tr1 ++ (trq ++ tr2) := by
        simp [handleConditionalSteps, hpre, hq, hpost]
      have htr2ok : ∀ e ∈ tr2, e.2.success = true := by
        have hh := runSteps_none_entries env postQuoteStages p2 (by rw [hpost])
        rw [hpost] at hh
        exact hh
      refine ⟨by rw [h2]; exact hndall, ?_, ?_⟩
      · rw [h2]
        intro e he
        have hemem : e ∈ tr1 ++ (trq ++ tr2) := (List.dropLast_sublist _).subset he
        rcases List.mem_append.mp hemem with he1 | he23
        · exact Or.inl (htr1ok e he1)
        · rcases List.mem_append.mp he23 with heq | he2
          · exact Or.inr (htrqfst e heq)
          · exact Or.inl (htr2ok e he2)
      · intro hfs
        rw [h1] at hfs
        simp [completionResult] at hfs

/-- A stage handler that succeeds and leaves the page unchanged. -/
def okStageHandler (tag : String) : Handler := fun p =>
  ({ success := true, message := tag, url := p.url, step := tag, data := none }, p)

/-- A stage handler that fails and leaves the page unchanged. -/
def failingStageHandler (tag : String) : Handler := fun p =>
  ({ success := false, message := tag, url := p.url, step := tag, data := none }, p)

/-- Environment in which the QuoteResults handler fails and every other
handler succeeds. -/
def c8Env : FunnelEnv :=
  { vehicleLookup := okStageHandler "vehicle_lookup",
    vehicleUsage := okStageHandler "vehicle_usage",
    vehicleList := okStageHandler "vehicle_list",
    driverInfo := okStageHandler "driver_info",
    driverList := okStageHandler "driver_list",
    policyInfo := okStageHandler "policy_info",
    coverageOptions := okStageHandler "coverage_options",
    propertyInfo := okStageHandler "property_info",
    quoteResults := failingStageHandler "quote_results_error",
    contactMethod := okStageHandler "contact_method",
    alsoInterested := okStageHandler "also_interested",
    thankYou := okStageHandler "thank_you",
    extractFallback := fun _ => none }

/-- A browser sitting on the quote-results page with the contact-method
marker present. -/
def c8Page : PageSnapshot :=
  { url := "https://funnel.example/QuoteResults", markers := ["pgContactMethod"] }

/-- C8 counterexample: the QuoteResults stage handler returns a failure
result, yet the run does not abort — the ContactMethod handler still
executes afterwards and the run returns overall success instead of the
failure result. -/
theorem c8_counterexample_quote_failure_not_fatal :
    (c8Env.quoteResults c8Page).1.success = false ∧
    (handleConditionalSteps c8Env c8Page).1.success = true ∧
    (handleConditionalSteps c8Env c8Page).2.map (fun e => (e.1, e.2.success)) =
      [(StageId.quoteResults, false), (StageId.contactMethod, true)] := by
  refine ⟨rfl, rfl, rfl⟩

/-- Environment in which the ContactMethod handler (a non-quote stage)
fails and every other handler succeeds. -/
def c8WitnessEnv : FunnelEnv :=
  { vehicleLookup := okStageHandler "vehicle_lookup",
    vehicleUsage := okStageHandler "vehicle_usage",
    vehicleList := okStageHandler "vehicle_list",
    driverInfo := okStageHandler "driver_info",
    driverList := okStageHandler "driver_list",
    policyInfo := okStageHandler "policy_info",
    coverageOptions := okStageHandler "coverage_options",
    propertyInfo := okStageHandler "property_info",
    quoteResults := okStageHandler "quote_results",
    contactMethod := failingStageHandler "contact_method_failed",
    alsoInterested := okStageHandler "also_interested",
    thankYou := okStageHandler "thank_you",
    extractFallback := fun _ => none }

/-- C8 amended witness: on a concrete run whose ContactMethod handler fails,
the run's result is exactly that failing handler's result, it is the last
trace entry, and its stage is not QuoteResults. -/
theorem c8_amended_witness :
    ∃ e, (handleConditionalSteps c8WitnessEnv c8Page).2.getLast? = some e ∧
      (handleConditionalSteps c8WitnessEnv c8Page).1 = e.2 ∧ e.2.success = false ∧
      e.1 ≠ StageId.quoteResults :=
  (c8_nonquote_failures_abort_run c8WitnessEnv c8Page).2.2 rfl

end InsuranceAutomation
